import Mathlib

/-!
Verification of the f1-fantasy-backend core (src/main.py, src/models.py).

The embedding models the persistent state of the FastAPI service:

* `Team` mirrors the `teams` table of models.py (the JSON-encoded `roster`
  Text column is represented by its parsed value, a list of driver names).
* `LockedSeason` mirrors the `locked_seasons` table.  Its five JSON Text
  columns are likewise represented by their parsed values.  Note that the
  table has NO `free_agents` column.
* `LockedSeasonObj` models the in-memory Python ORM instance handled by
  `trade_locked`: the instance carries the columns of `LockedSeason` plus an
  optional dynamic attribute `free_agents` (main.py reads and writes
  `locked.free_agents`, an attribute that no column backs).  Reading the
  attribute on a freshly loaded row raises `AttributeError`, which the
  embedding represents with the `PyErr.attributeErr` outcome.
* Python dict values are association lists in insertion order; `dset`
  mirrors `d[k] = v` (update in place, append if missing) and `dsetdefault`
  mirrors `d.setdefault(k, v)`.
* Numeric values (`float` points) are modelled as exact rationals; Python's
  `round(x, 2)` is `pyround2` (round half to even on the exact value).
* Endpoint failure (raised `HTTPException` / `AttributeError`) is the
  `Except.error` outcome; the database is only written on `Except.ok`
  (main.py calls `db.commit()` only at the end of the success path).
-/

/-- Python `list.__contains__` / `needle in hay` for `List Char`,
used to talk about substring occurrence in error messages. -/
def listContainsSub (needle : List Char) : List Char → Bool
  | [] => needle.isEmpty
  | c :: rest => needle.isPrefixOf (c :: rest) || listContainsSub needle rest

/-- `strContains hay needle = true` iff `needle` occurs in `hay` as a
contiguous substring. -/
def strContains (hay needle : String) : Bool :=
  listContainsSub needle.data hay.data

/-! ### Python dict as an association list (insertion order preserved) -/

/-- Python `d.get(k)` / `d[k]` lookup: first entry with the given key. -/
def dget? [DecidableEq κ] (d : List (κ × α)) (k : κ) : Option α :=
  (d.find? (fun p => p.1 = k)).map (·.2)

/-- Python `d.get(k, v₀)`. -/
def dgetD [DecidableEq κ] (d : List (κ × α)) (k : κ) (v₀ : α) : α :=
  (dget? d k).getD v₀

/-- Python `d[k] = v`: replace in place if the key is present (keeping its
position in insertion order), append otherwise. -/
def dset [DecidableEq κ] : List (κ × α) → κ → α → List (κ × α)
  | [], k, v => [(k, v)]
  | (k', v') :: rest, k, v =>
    if k' = k then (k', v) :: rest else (k', v') :: dset rest k v

/-- Python `d.setdefault(k, v)` (ignoring the returned reference): insert
`(k, v)` at the end iff `k` is absent. -/
def dsetdefault [DecidableEq κ] (d : List (κ × α)) (k : κ) (v : α) : List (κ × α) :=
  if (dget? d k).isSome then d else d ++ [(k, v)]

/-- Python `d.setdefault(k, []).extend(xs)`: the list stored under `k`
(created empty if absent) grows by `xs`. -/
def dextendAt [DecidableEq κ] (d : List (κ × List σ)) (k : κ) (xs : List σ) :
    List (κ × List σ) :=
  match dget? d k with
  | some v => dset d k (v ++ xs)
  | none => d ++ [(k, xs)]

theorem dget?_nil [DecidableEq κ] (k : κ) : dget? ([] : List (κ × α)) k = none := rfl

theorem dget?_cons [DecidableEq κ] (k' : κ) (v' : α) (rest : List (κ × α)) (k : κ) :
    dget? ((k', v') :: rest) k = if k' = k then some v' else dget? rest k := by
  by_cases h : k' = k <;> simp [dget?, List.find?, h]

theorem dget?_dset_self [DecidableEq κ] (d : List (κ × α)) (k : κ) (v : α) :
    dget? (dset d k v) k = some v := by
  induction d with
  | nil => simp [dset, dget?_cons]
  | cons p rest ih =>
    obtain ⟨k', v'⟩ := p
    by_cases h : k' = k
    · simp [dset, h, dget?_cons]
    · simp [dset, h, dget?_cons, ih]

theorem dget?_dset_ne [DecidableEq κ] (d : List (κ × α)) (k k' : κ) (v : α)
    (h : k ≠ k') : dget? (dset d k v) k' = dget? d k' := by
  induction d with
  | nil => simp [dset, dget?_cons, h]
  | cons p rest ih =>
    obtain ⟨k₀, v₀⟩ := p
    by_cases hp : k₀ = k
    · subst hp
      simp [dset, dget?_cons, h]
    · simp [dset, hp, dget?_cons, ih]

theorem dget?_append [DecidableEq κ] (d e : List (κ × α)) (k : κ) :
    dget? (d ++ e) k = ((dget? d k).orElse (fun _ => dget? e k)) := by
  induction d with
  | nil => simp [dget?, Option.orElse]
  | cons p rest ih =>
    obtain ⟨k₀, v₀⟩ := p
    by_cases hp : k₀ = k
    · simp [dget?_cons, hp, Option.orElse]
    · simp [dget?_cons, hp, ih]

theorem dget?_dsetdefault [DecidableEq κ] (d : List (κ × α)) (k k' : κ) (v : α) :
    dget? (dsetdefault d k v) k' =
      if k = k' then (dget? d k').orElse (fun _ => some v) else dget? d k' := by
  unfold dsetdefault
  rcases hk : dget? d k with _ | w
  · simp only [hk, Option.isSome_none, Bool.false_eq_true, if_false]
    rw [dget?_append]
    by_cases h : k = k'
    · subst h
      simp [hk, dget?_cons, Option.orElse]
    · simp only [dget?_cons, h, if_false, dget?_nil]
      rcases hk' : dget? d k' with _ | w' <;> simp [Option.orElse]
  · simp only [hk, Option.isSome_some, if_true]
    by_cases h : k = k'
    · subst h
      simp [hk, Option.orElse]
    · simp [h]

theorem dgetD_dsetdefault_self [DecidableEq κ] (d : List (κ × α)) (k : κ) (v₀ : α) :
    dgetD (dsetdefault d k v₀) k v₀ = dgetD d k v₀ := by
  unfold dgetD
  rw [dget?_dsetdefault]
  simp only [if_pos rfl]
  rcases h : dget? d k with _ | w <;> simp [Option.orElse]

theorem dgetD_dsetdefault_ne [DecidableEq κ] (d : List (κ × α)) (k k' : κ) (v v₀ : α)
    (h : k ≠ k') : dgetD (dsetdefault d k v) k' v₀ = dgetD d k' v₀ := by
  unfold dgetD
  rw [dget?_dsetdefault, if_neg h]

theorem dgetD_dset_self [DecidableEq κ] (d : List (κ × α)) (k : κ) (v v₀ : α) :
    dgetD (dset d k v) k v₀ = v := by
  unfold dgetD; rw [dget?_dset_self]; rfl

theorem dgetD_dset_ne [DecidableEq κ] (d : List (κ × α)) (k k' : κ) (v v₀ : α)
    (h : k ≠ k') : dgetD (dset d k v) k' v₀ = dgetD d k' v₀ := by
  unfold dgetD; rw [dget?_dset_ne _ _ _ _ h]

/-! ### Python `round(x, 2)` on exact decimal values -/

/-- Round a rational to the nearest integer, halves to the even neighbour,
as Python's `round` does (the embedding works on the exact decimal value). -/
def roundHalfEven (x : ℚ) : ℤ :=
  if x - (x.floor : ℚ) < 1/2 then x.floor
  else if 1/2 < x - (x.floor : ℚ) then x.floor + 1
  else if x.floor % 2 = 0 then x.floor else x.floor + 1

/-- Python `round(x, 2)`. -/
def pyround2 (x : ℚ) : ℚ :=
  ((roundHalfEven (100 * x) : ℤ) : ℚ) / 100

/-- A rational with at most two decimal places. -/
def TwoDecimal (q : ℚ) : Prop := (100 * q).den = 1

instance (q : ℚ) : Decidable (TwoDecimal q) := by
  unfold TwoDecimal; infer_instance

theorem roundHalfEven_den_one (x : ℚ) (h : x.den = 1) : roundHalfEven x = x.num := by
  have hf : x.floor = x.num := by
    rw [Rat.floor_def', h]
    simp
  have hx : (x.num : ℚ) = x := by
    conv_rhs => rw [← Rat.num_div_den x]
    rw [h]
    simp
  unfold roundHalfEven
  rw [hf, hx]
  norm_num

theorem pyround2_twoDecimal (q : ℚ) (h : TwoDecimal q) : pyround2 q = q := by
  unfold TwoDecimal at h
  have hq : ((100 * q).num : ℚ) = 100 * q := by
    conv_rhs => rw [← Rat.num_div_den (100 * q)]
    rw [h]
    simp
  unfold pyround2
  rw [roundHalfEven_den_one _ h, hq]
  ring

/-! ### Constants from main.py -/

/-- main.py `RACE_LIST`: the fixed race calendar, in order. -/
def RACE_LIST : List String :=
  ["Bahrain", "Saudi Arabia", "Miami", "Imola",
   "Monaco", "Spain", "Canada", "Austria",
   "UK", "Belgium", "Hungary", "Netherlands",
   "Monza", "Azerbaijan", "Singapore", "Texas",
   "Mexico", "Brazil", "Vegas", "Qatar",
   "Abu Dhabi"]

/-- main.py `ROUND_MAP`: race name to season round number. -/
def ROUND_MAP : List (String × Nat) :=
  [("Bahrain", 4), ("Saudi Arabia", 5), ("Miami", 6), ("Imola", 7),
   ("Monaco", 8), ("Spain", 9), ("Canada", 10), ("Austria", 11),
   ("UK", 12), ("Belgium", 13), ("Hungary", 14), ("Netherlands", 15),
   ("Monza", 16), ("Azerbaijan", 17), ("Singapore", 18), ("Texas", 19),
   ("Mexico", 20), ("Brazil", 21), ("Vegas", 22), ("Qatar", 23),
   ("Abu Dhabi", 24)]

/-- main.py `BONUS_MAP`: custom points for finishing positions 11 to 20
(0.50, 0.40, 0.30, 0.20, 0.10, 0.05, 0.04, 0.03, 0.02, 0.01). -/
def BONUS_MAP : List (Nat × ℚ) :=
  [(11, 50/100), (12, 40/100), (13, 30/100), (14, 20/100), (15, 10/100),
   (16, 5/100), (17, 4/100), (18, 3/100), (19, 2/100), (20, 1/100)]

/-- main.py: the free-agency pseudo-team sentinel string. -/
def FREE_AGENCY : String := "__FREE_AGENCY__"

/-! ### Data model (models.py, with JSON Text columns parsed) -/

/-- models.py `Team` (pre-lock roster store).  `roster` is the parsed value
of the JSON Text column; `points` is the Integer column. -/
structure Team where
  name : String
  roster : List String
  points : Int
deriving DecidableEq

/-- Per-driver, per-race breakdown entry, `{"points": p, "team": team}`. -/
structure RPRec where
  points : ℚ
  team : String
deriving DecidableEq

/-- models.py `LockedSeason` row, with each JSON Text column replaced by its
parsed value.  The table defines NO `free_agents` column. -/
structure LockedSeason where
  season_id : String
  teams : List (String × List String)
  points : List (String × ℚ)
  trade_history : List String
  race_points : List (String × List (String × RPRec))
  processed_races : List String
deriving DecidableEq

/-- The in-memory ORM instance seen by `trade_locked`: the row's columns
plus the dynamic Python attribute `free_agents`, which no column backs.
`none` models the attribute being unset (reading it raises
`AttributeError`); `some fa` models an instance on which it was assigned. -/
structure LockedSeasonObj where
  season_id : String
  teams : List (String × List String)
  points : List (String × ℚ)
  trade_history : List String
  race_points : List (String × List (String × RPRec))
  processed_races : List String
  free_agents : Option (List String)
deriving DecidableEq

/-- Loading a `LockedSeason` row from the database yields an instance whose
`free_agents` attribute is unset (the column does not exist, and assignments
to the attribute are never persisted). -/
def loadLockedSeason (r : LockedSeason) : LockedSeasonObj :=
  { season_id := r.season_id, teams := r.teams, points := r.points,
    trade_history := r.trade_history, race_points := r.race_points,
    processed_races := r.processed_races, free_agents := none }

/-- Committing an instance persists only the columns of the table; the
dynamic `free_agents` attribute is dropped. -/
def storeLockedSeason (o : LockedSeasonObj) : LockedSeason :=
  { season_id := o.season_id, teams := o.teams, points := o.points,
    trade_history := o.trade_history, race_points := o.race_points,
    processed_races := o.processed_races }

/-- main.py `LockedTradeRequest` (pydantic model). -/
structure LockedTradeRequest where
  from_team : String
  to_team : String
  drivers_from_team : List String
  drivers_to_team : List String
  from_team_points : Int := 0
  to_team_points : Int := 0
deriving DecidableEq

/-- One entry of the external feed's `Results` array, restricted to the
fields main.py reads: `position`, `status`, `Driver.givenName`,
`Driver.familyName`, `points`. -/
structure ResultEntry where
  position : Nat
  status : String
  givenName : String
  familyName : String
  points : ℚ
deriving DecidableEq

/-- One entry of `data["MRData"]["RaceTable"]["Races"]`. -/
structure RaceData where
  results : List ResultEntry
deriving DecidableEq

/-- The response of the external results feed for one round, as main.py
consumes it: HTTP status code and the parsed `Races` array. -/
structure FetchResp where
  status_code : Nat
  races : List RaceData
deriving DecidableEq

/-- A request outcome: a raised `HTTPException(status, detail)` or a raised
Python `AttributeError` for a missing attribute. -/
inductive PyErr where
  | http (status : Nat) (detail : String)
  | attributeErr (missing : String)
deriving DecidableEq

/-- The persistent database state: the `teams` table and the
`locked_seasons` table. -/
structure DB where
  teams : List Team
  seasons : List LockedSeason
deriving DecidableEq

/-- The empty database. -/
def initDB : DB := { teams := [], seasons := [] }

/-! ### Pre-lock endpoints (main.py lines 115-179) -/

/-- Apply `f` to the first element satisfying `p`, the way a SQLAlchemy
`.filter(...).first()` query followed by in-place mutation behaves. -/
def updateFirst (p : α → Bool) (f : α → α) : List α → List α
  | [] => []
  | x :: xs => if p x then f x :: xs else x :: updateFirst p f xs

/-- main.py `register_team`: on a duplicate name the endpoint returns an
error payload without touching the database; otherwise a team with an empty
roster and 0 points is added. -/
def register_team (db : DB) (team_name : String) : DB :=
  if db.teams.any (fun t => t.name = team_name) then db
  else { db with teams := db.teams ++ [{ name := team_name, roster := [], points := 0 }] }

/-- main.py `draft_driver`: 404 if the team is unknown, 400 if its roster
already has 6 drivers, 400 if any team (including itself) already holds the
driver; otherwise the driver is appended to the team's roster. -/
def draft_driver (db : DB) (team_name driver_name : String) : Except PyErr DB :=
  match db.teams.find? (fun t => t.name = team_name) with
  | none => .error (.http 404 "Team not found.")
  | some team =>
    if team.roster.length ≥ 6 then .error (.http 400 "Team already has 6 drivers!")
    else if db.teams.any (fun t => driver_name ∈ t.roster) then
      .error (.http 400 "Driver already drafted.")
    else
      .ok { db with
            teams := updateFirst (fun t => t.name = team_name)
              (fun t => { t with roster := t.roster ++ [driver_name] }) db.teams }

/-- main.py `undo_draft`: 404 if the team is unknown, 400 if the driver is
not on its roster; otherwise the first occurrence is removed. -/
def undo_draft (db : DB) (team_name driver_name : String) : Except PyErr DB :=
  match db.teams.find? (fun t => t.name = team_name) with
  | none => .error (.http 404 "Team not found.")
  | some team =>
    if driver_name ∈ team.roster then
      .ok { db with
            teams := updateFirst (fun t => t.name = team_name)
              (fun t => { t with roster := t.roster.erase driver_name }) db.teams }
    else .error (.http 400 "Driver not on this team.")

/-- main.py `reset_teams`: deletes every row of the `teams` table. -/
def reset_teams (db : DB) : DB := { db with teams := [] }

/-! ### lock_teams (main.py lines 185-206) -/

/-- The `LockedSeason` row built by `lock_teams` on success: snapshot of
team rosters and points, empty trade history, race points and processed-race
list.  `sid` stands for the generated `uuid.uuid4()` string. -/
def lockRow (teams : List Team) (sid : String) : LockedSeason :=
  { season_id := sid,
    teams := teams.map (fun t => (t.name, t.roster)),
    points := teams.map (fun t => (t.name, (t.points : ℚ))),
    trade_history := [],
    race_points := [],
    processed_races := [] }

/-- main.py `lock_teams`: requires exactly 3 teams, each with a roster of
exactly 6 drivers (failing on the first deficient team, in table order);
on success appends the snapshot row to `locked_seasons` and leaves the
`teams` table untouched. -/
def lock_teams (db : DB) (sid : String) : Except PyErr DB :=
  if db.teams.length ≠ 3 then .error (.http 400 "We need exactly 3 teams to lock.")
  else
    match db.teams.find? (fun t => t.roster.length ≠ 6) with
    | some t => .error (.http 400 ("Team " ++ t.name ++ " does not have 6 drivers."))
    | none => .ok { db with seasons := db.seasons ++ [lockRow db.teams sid] }

/-! ### trade_locked (main.py lines 249-333) -/

/-- The loop `for d in ds: if d not in lst: raise ...; lst.remove(d)`:
each listed driver must be present and its first occurrence is removed. -/
def removeAll (lst : List String) (ds : List String) (errMsg : String → String) :
    Except PyErr (List String) :=
  match ds with
  | [] => .ok lst
  | d :: rest =>
    if d ∈ lst then removeAll (lst.erase d) rest errMsg
    else .error (.http 400 (errMsg d))

/-- Python `str` of a list of strings, as used in the trade-history line. -/
def pyListRepr (xs : List String) : String :=
  let q := String.singleton (Char.ofNat 39)
  "[" ++ String.intercalate ", " (xs.map (fun s => q ++ s ++ q)) ++ "]"

/-- The timestamped trade-history line appended by `trade_locked`. -/
def tradeLogLine (now : String) (req : LockedTradeRequest) : String :=
  "On " ++ now ++ ", " ++ req.from_team ++ " traded " ++
    pyListRepr req.drivers_from_team ++ " +" ++ toString req.from_team_points ++
    "pts to " ++ req.to_team ++ " for " ++ pyListRepr req.drivers_to_team ++
    " +" ++ toString req.to_team_points ++ "pts."

/-- main.py `trade_locked`, applied to an already-loaded instance.  Steps
follow the source: (1) load the four blobs, where reading the nonexistent
`free_agents` attribute raises `AttributeError` on a fresh instance; (2)/(3)
remove the outgoing drivers from each side (free agency or team roster, the
roster defaulting to `[]` for an unknown team); (4) append them to the
opposite side via `setdefault(...).extend(...)`; (5) exchange the sweetener
points after `setdefault(team, 0.0)`; (6) append the history line.  There
are no other validation checks in the source (the block at line 265 is only
a comment).  `now` stands for `datetime.now().strftime(...)`. -/
def trade_locked (locked : LockedSeasonObj) (req : LockedTradeRequest)
    (now : String) : Except PyErr LockedSeasonObj := do
  let teams := locked.teams
  let free_agents ← match locked.free_agents with
    | none => Except.error (.attributeErr "free_agents")
    | some fa => Except.ok fa
  let points := locked.points
  let history := locked.trade_history
  -- 2) Remove from "from_team"
  let (teams, free_agents) ←
    if req.from_team = FREE_AGENCY then do
      let fa ← removeAll free_agents req.drivers_from_team
        (fun d => d ++ " not in free agency")
      Except.ok (teams, fa)
    else do
      let roster := dgetD teams req.from_team []
      let roster ← removeAll roster req.drivers_from_team
        (fun d => d ++ " not on team " ++ req.from_team)
      Except.ok (dset teams req.from_team roster, free_agents)
  -- 3) Remove from "to_team"
  let (teams, free_agents) ←
    if req.to_team = FREE_AGENCY then do
      let fa ← removeAll free_agents req.drivers_to_team
        (fun d => d ++ " not in free agency")
      Except.ok (teams, fa)
    else do
      let roster := dgetD teams req.to_team []
      let roster ← removeAll roster req.drivers_to_team
        (fun d => d ++ " not on team " ++ req.to_team)
      Except.ok (dset teams req.to_team roster, free_agents)
  -- 4) Add into the opposite side
  let (teams, free_agents) :=
    if req.to_team = FREE_AGENCY then (teams, free_agents ++ req.drivers_from_team)
    else (dextendAt teams req.to_team req.drivers_from_team, free_agents)
  let (teams, free_agents) :=
    if req.from_team = FREE_AGENCY then (teams, free_agents ++ req.drivers_to_team)
    else (dextendAt teams req.from_team req.drivers_to_team, free_agents)
  -- 5) Sweetener point exchange
  let points := dsetdefault points req.from_team 0
  let points := dsetdefault points req.to_team 0
  let points := dset points req.from_team
    (dgetD points req.from_team 0 - (req.from_team_points : ℚ))
  let points := dset points req.to_team
    (dgetD points req.to_team 0 + (req.from_team_points : ℚ))
  let points := dset points req.to_team
    (dgetD points req.to_team 0 - (req.to_team_points : ℚ))
  let points := dset points req.from_team
    (dgetD points req.from_team 0 + (req.to_team_points : ℚ))
  -- 6) Log the trade; 7) persist
  Except.ok { locked with
    teams := teams,
    free_agents := some free_agents,
    points := points,
    trade_history := history ++ [tradeLogLine now req] }

/-! ### update_race_points (main.py lines 335-440) -/

/-- ASCII lowercasing of one character. -/
def lowerChar (c : Char) : Char :=
  if c.toNat ≥ 65 ∧ c.toNat ≤ 90 then Char.ofNat (c.toNat + 32) else c

/-- Python `s.lower()` restricted to ASCII, which covers every status string
the feed produces. -/
def pyLower (s : String) : String := String.mk (s.data.map lowerChar)

/-- The status test of main.py line 416: `status in ("finished",
"classified", "lapped")` on the lowercased status. -/
def statusCounts (s : String) : Bool :=
  pyLower s = "finished" || pyLower s = "classified" || pyLower s = "lapped"

/-- main.py lines 407-422: the points computed for one result entry.
Official feed points are taken verbatim; the `BONUS_MAP` value is added
only when the position is in 11-20 and the lowercased status is
"finished", "classified" or "lapped"; the total is rounded to 2 decimals. -/
def computeDriverPts (r : ResultEntry) : ℚ :=
  let pts := r.points
  let pts :=
    match dget? BONUS_MAP r.position with
    | some b => if statusCounts r.status then pts + b else pts
    | none => pts
  pyround2 pts

/-- The driver-name → points dict built from the `Results` array. -/
def buildDriverPts (results : List ResultEntry) : List (String × ℚ) :=
  results.foldl
    (fun d r => dset d (r.givenName ++ " " ++ r.familyName) (computeDriverPts r)) []

/-- Inner body of the attribution loop (main.py lines 428-431): record the
driver's breakdown under the race and add the points to the team total. -/
def scoreDriver (driver_pts : List (String × ℚ)) (race_id team : String)
    (acc : List (String × ℚ) × List (String × List (String × RPRec)))
    (drv : String) :
    List (String × ℚ) × List (String × List (String × RPRec)) :=
  let p := dgetD driver_pts drv 0
  let rp := dset acc.2 race_id (dset (dgetD acc.2 race_id []) drv ⟨p, team⟩)
  let pm := dset acc.1 team (dgetD acc.1 team 0 + p)
  (pm, rp)

/-- One team's turn of the attribution loop (main.py lines 426-431). -/
def scoreTeam (driver_pts : List (String × ℚ)) (race_id : String)
    (acc : List (String × ℚ) × List (String × List (String × RPRec)))
    (tr : String × List String) :
    List (String × ℚ) × List (String × List (String × RPRec)) :=
  let pm := dsetdefault acc.1 tr.1 0
  tr.2.foldl (scoreDriver driver_pts race_id tr.1) (pm, acc.2)

/-- main.py lines 424-431: `rp_data.setdefault(race_id, {})` followed by the
per-team, per-driver attribution loop over the teams snapshot. -/
def applyRace (teams : List (String × List String)) (driver_pts : List (String × ℚ))
    (race_id : String) (pts_map : List (String × ℚ))
    (rp_data : List (String × List (String × RPRec))) :
    List (String × ℚ) × List (String × List (String × RPRec)) :=
  teams.foldl (scoreTeam driver_pts race_id) (pts_map, dsetdefault rp_data race_id [])

/-- The round string visited by the "latest" loop for a calendar entry:
`str(ROUND_MAP[name])`.  (Every `RACE_LIST` name is a `ROUND_MAP` key, so
the `KeyError` branch of the Python lookup is unreachable; the default 0 is
never used.) -/
def roundStr (name : String) : String := toString (dgetD ROUND_MAP name 0)

/-- main.py lines 361-379: resolve `race_id == "latest"` by walking
`RACE_LIST` in order, skipping processed rounds; the first unprocessed
round is chosen, failing if its results are not yet published; if the walk
exhausts the calendar, every round was processed. -/
def resolveLatestAux (processed : List String) (fetch : String → FetchResp) :
    List String → Except PyErr String
  | [] => .error (.http 400 "All races have been processed")
  | name :: rest =>
    let rn := roundStr name
    if processed.contains rn then resolveLatestAux processed fetch rest
    else if (fetch rn).races = [] then .error (.http 400 "Next race not yet available")
    else .ok rn

/-- Resolution of the special `"latest"` race identifier. -/
def resolveLatest (processed : List String) (fetch : String → FetchResp) :
    Except PyErr String :=
  resolveLatestAux processed fetch RACE_LIST

/-- main.py lines 382-438: the part of `update_race_points` that runs after
the `"latest"` resolution, with the resolved `race_id`.  Checks the
processed guard, fetches the round's results (modelled by the `fetch`
oracle), scores and attributes them, and finally appends the round to the
processed list. -/
def update_core (locked : LockedSeason) (race_id : String)
    (fetch : String → FetchResp) : Except PyErr LockedSeason :=
  if race_id ∈ locked.processed_races then
    .error (.http 400 "This race has already been processed.")
  else
    let resp := fetch race_id
    if resp.status_code ≠ 200 then .error (.http 400 "Error fetching race data.")
    else
      match resp.races with
      | [] => .error (.http 400 "No race data available for this round.")
      | race :: _ =>
        let driver_pts := buildDriverPts race.results
        let applied := applyRace locked.teams driver_pts race_id
          locked.points locked.race_points
        .ok { locked with
              points := applied.1,
              race_points := applied.2,
              processed_races := locked.processed_races ++ [race_id] }

/-- main.py `update_race_points` on a loaded `LockedSeason` row. -/
def update_race_points (locked : LockedSeason) (race_id : String)
    (fetch : String → FetchResp) : Except PyErr LockedSeason :=
  match (if race_id = "latest"
         then resolveLatest locked.processed_races fetch
         else .ok race_id) with
  | .error e => .error e
  | .ok rid => update_core locked rid fetch

/-! ### Endpoint wrappers over the database and the operation alphabet -/

/-- Replace the first season row with the given `season_id`. -/
def putSeason (db : DB) (sid : String) (row : LockedSeason) : DB :=
  { db with seasons := updateFirst (fun s => s.season_id = sid) (fun _ => row) db.seasons }

/-- The `/trade_locked` endpoint: look the season up, run the trade on the
loaded instance, and persist the surviving columns on success. -/
def trade_endpoint (db : DB) (sid : String) (req : LockedTradeRequest)
    (now : String) : Except PyErr DB :=
  match db.seasons.find? (fun s => s.season_id = sid) with
  | none => .error (.http 404 "Season not found.")
  | some row =>
    match trade_locked (loadLockedSeason row) req now with
    | .error e => .error e
    | .ok obj => .ok (putSeason db sid (storeLockedSeason obj))

/-- The `/update_race_points` endpoint. -/
def update_endpoint (db : DB) (sid race_id : String)
    (fetch : String → FetchResp) : Except PyErr DB :=
  match db.seasons.find? (fun s => s.season_id = sid) with
  | none => .error (.http 404 "Season not found.")
  | some row =>
    match update_race_points row race_id fetch with
    | .error e => .error e
    | .ok row' => .ok (putSeason db sid row')

/-- The operations a client can perform against the service. -/
inductive Op where
  | register (team_name : String)
  | draft (team_name driver_name : String)
  | undo (team_name driver_name : String)
  | reset
  | lock (sid : String)
  | trade (sid : String) (req : LockedTradeRequest) (now : String)
  | update (sid race_id : String) (fetch : String → FetchResp)

/-- One request against the database: a failing request (HTTP error status
or uncaught Python exception) commits nothing and leaves the state as it
was. -/
def step (db : DB) : Op → DB
  | .register n => register_team db n
  | .draft t d => ((draft_driver db t d).toOption).getD db
  | .undo t d => ((undo_draft db t d).toOption).getD db
  | .reset => reset_teams db
  | .lock sid => ((lock_teams db sid).toOption).getD db
  | .trade sid req now => ((trade_endpoint db sid req now).toOption).getD db
  | .update sid rid f => ((update_endpoint db sid rid f).toOption).getD db

/-- Run a sequence of operations from the empty database. -/
def runOps (ops : List Op) : DB := ops.foldl step initDB

/-! ### Trade lemmas -/

/-- On any instance freshly loaded from the database the `free_agents`
attribute is unset, so step 1 of `trade_locked` (main.py line 261) raises
`AttributeError` before any validation or mutation. -/
theorem trade_locked_load_fails (r : LockedSeason) (req : LockedTradeRequest)
    (now : String) :
    trade_locked (loadLockedSeason r) req now = .error (.attributeErr "free_agents") := rfl

/-- Every `/trade_locked` request fails: with 404 when the season is
unknown, otherwise with the `AttributeError` of reading `free_agents`. -/
theorem trade_endpoint_always_fails (db : DB) (sid : String)
    (req : LockedTradeRequest) (now : String) :
    ∃ e, trade_endpoint db sid req now = .error e := by
  unfold trade_endpoint
  rcases h : db.seasons.find? (fun s => s.season_id = sid) with _ | row
  · rw [h]
    exact ⟨_, rfl⟩
  · rw [h]
    exact ⟨.attributeErr "free_agents", rfl⟩

/-- A `/trade_locked` request never changes the database. -/
theorem step_trade_eq (db : DB) (sid : String) (req : LockedTradeRequest)
    (now : String) : step db (.trade sid req now) = db := by
  obtain ⟨e, he⟩ := trade_endpoint_always_fails db sid req now
  simp [step, he, Except.toOption]

/-- Claim C1: for every stored `LockedSeason` record, `trade_locked` reads
the `free_agents` attribute, which no column of the model defines and
`lock_teams` never sets; hence every invocation on an existing season
raises `AttributeError` before any validation or mutation, and the ledger
is left unchanged. -/
theorem C1_trade_locked_always_attribute_error (db : DB) (sid : String)
    (req : LockedTradeRequest) (now : String) (row : LockedSeason)
    (hfound : db.seasons.find? (fun s => s.season_id = sid) = some row) :
    trade_endpoint db sid req now = .error (.attributeErr "free_agents") ∧
      step db (.trade sid req now) = db := by
  constructor
  · unfold trade_endpoint
    rw [hfound]
    rfl
  · exact step_trade_eq db sid req now

/-- A concrete locked season used by the trade witnesses: two teams with
one driver each. -/
def demoRow : LockedSeason :=
  { season_id := "season-1",
    teams := [("Alpha", ["d1"]), ("Beta", ["d2"])],
    points := [("Alpha", 5), ("Beta", 0)],
    trade_history := [], race_points := [], processed_races := [] }

/-- A database holding just `demoRow`. -/
def demoDB : DB := { teams := [], seasons := [demoRow] }

/-- Witness for C1 at a concrete season and request. -/
theorem C1_witness :
    trade_endpoint demoDB "season-1" ⟨"Alpha", "Beta", ["d1"], ["d2"], 0, 0⟩ "t"
        = .error (.attributeErr "free_agents") ∧
      step demoDB (.trade "season-1" ⟨"Alpha", "Beta", ["d1"], ["d2"], 0, 0⟩ "t")
        = demoDB :=
  C1_trade_locked_always_attribute_error demoDB "season-1"
    ⟨"Alpha", "Beta", ["d1"], ["d2"], 0, 0⟩ "t" demoRow (by decide)

/-- Claim C2: a trade request whose two driver lists have different lengths
fails with an error and leaves every roster and point balance exactly as it
was — no partial mutation reaches the database.  (In the source this holds
because every trade request fails before any validation: the equal-count
check itself does not exist in `trade_locked`, and the `AttributeError` of
reading `free_agents` aborts the request before `db.commit()`.) -/
theorem C2_unequal_trade_fails_unchanged (db : DB) (sid : String)
    (req : LockedTradeRequest) (now : String)
    (_hlen : req.drivers_from_team.length ≠ req.drivers_to_team.length) :
    (∃ e, trade_endpoint db sid req now = .error e) ∧
      step db (.trade sid req now) = db :=
  ⟨trade_endpoint_always_fails db sid req now, step_trade_eq db sid req now⟩

/-- Witness for C2: a one-for-zero trade request on the demo season. -/
theorem C2_witness :
    ((["d1"] : List String).length ≠ ([] : List String).length) ∧
      ((∃ e, trade_endpoint demoDB "season-1" ⟨"Alpha", "Beta", ["d1"], [], 0, 0⟩ "t"
          = .error e) ∧
        step demoDB (.trade "season-1" ⟨"Alpha", "Beta", ["d1"], [], 0, 0⟩ "t")
          = demoDB) :=
  ⟨by decide,
    C2_unequal_trade_fails_unchanged demoDB "season-1"
      ⟨"Alpha", "Beta", ["d1"], [], 0, 0⟩ "t" (by decide)⟩

/-! ### The missing trade validations (claims C3 and C4) -/

/-- The demo season instance with the `free_agents` attribute set (the
state `trade_locked` assumes but which no database load can produce),
used to exercise the code past the `AttributeError`. -/
def demoObjFA : LockedSeasonObj := { loadLockedSeason demoRow with free_agents := some [] }

/-- The point balance of a team after a trade attempt, when it succeeded. -/
def tradePointsAfter (r : Except PyErr LockedSeasonObj) (team : String) : Option ℚ :=
  r.toOption.map (fun o => dgetD o.points team 0)

/-- The roster entry of a team after a trade attempt, when it succeeded. -/
def tradeTeamsAfter (r : Except PyErr LockedSeasonObj) (team : String) :
    Option (Option (List String)) :=
  r.toOption.map (fun o => dget? o.teams team)

/-- Claim C3 (code bug): `trade_locked` contains no sweetener validation at
all — the source marks the spot with a comment and checks nothing.  On the
real path a request with a negative sweetener fails with the same
`AttributeError` as every other request, not with a distinct error; and
were the `free_agents` attribute present, the same request would be
applied, driving Beta's balance to -5 (a one-for-one trade of d1 for d2
with `from_team_points = -5` against balances Alpha 5, Beta 0 yields
Alpha 10, Beta -5). -/
theorem C3_no_sweetener_validation :
    trade_locked (loadLockedSeason demoRow) ⟨"Alpha", "Beta", ["d1"], ["d2"], -5, 0⟩ "t"
        = .error (.attributeErr "free_agents") ∧
      tradePointsAfter
          (trade_locked demoObjFA ⟨"Alpha", "Beta", ["d1"], ["d2"], -5, 0⟩ "t") "Beta"
        = some (-5) ∧
      tradePointsAfter
          (trade_locked demoObjFA ⟨"Alpha", "Beta", ["d1"], ["d2"], -5, 0⟩ "t") "Alpha"
        = some 10 := by
  refine ⟨rfl, ?_, ?_⟩ <;>
    · simp [trade_locked, demoObjFA, demoRow, loadLockedSeason, tradePointsAfter,
        removeAll, dextendAt, dset, dget?, dgetD, dsetdefault, FREE_AGENCY,
        List.find?, Except.toOption, tradeLogLine, bind, Except.bind]
      try norm_num

/-- Claim C4 (code bug): `trade_locked` never checks that the named teams
exist in the ledger.  On the real path a request naming the unknown team
"Ghost" fails with the indiscriminate `AttributeError`; and were the
`free_agents` attribute present, a request from "Ghost" with empty driver
lists would succeed and silently add a new "Ghost" entry to both the
`teams` and the `points` mappings (via `dict.get`/`setdefault`), instead of
failing with a distinct error. -/
theorem C4_no_team_existence_check :
    trade_locked (loadLockedSeason demoRow) ⟨"Ghost", "Alpha", [], [], 0, 0⟩ "t"
        = .error (.attributeErr "free_agents") ∧
      tradeTeamsAfter (trade_locked demoObjFA ⟨"Ghost", "Alpha", [], [], 0, 0⟩ "t") "Ghost"
        = some (some []) ∧
      tradePointsAfter (trade_locked demoObjFA ⟨"Ghost", "Alpha", [], [], 0, 0⟩ "t") "Ghost"
        = some 0 := by
  refine ⟨rfl, ?_, ?_⟩ <;>
    simp [trade_locked, demoObjFA, demoRow, loadLockedSeason, tradePointsAfter,
      tradeTeamsAfter, removeAll, dextendAt, dset, dget?, dgetD, dsetdefault,
      FREE_AGENCY, List.find?, Except.toOption, tradeLogLine, bind, Except.bind]

/-! ### lock_teams (claim C5) -/

/-- Two registered teams, each already holding 6 drivers. -/
def demoTeamsTwo : List Team :=
  [⟨"Alpha", ["a1", "a2", "a3", "a4", "a5", "a6"], 0⟩,
   ⟨"Beta", ["b1", "b2", "b3", "b4", "b5", "b6"], 0⟩]

/-- Counterexample to claim C5 as stated: with 2 teams (each of 6 drivers)
`lock_teams` fails, but its error message "We need exactly 3 teams to
lock." does not name any offending team — it contains neither registered
team name. -/
theorem C5_counterexample_count_error_names_no_team :
    lock_teams ⟨demoTeamsTwo, []⟩ "sid-1"
        = .error (.http 400 "We need exactly 3 teams to lock.") ∧
      strContains "We need exactly 3 teams to lock." "Alpha" = false ∧
      strContains "We need exactly 3 teams to lock." "Beta" = false := by
  refine ⟨rfl, by decide, by decide⟩

/-- Claim C5 as amended: `lock_teams` succeeds iff exactly 3 teams exist
and each roster has exactly 6 drivers.  A wrong team count fails with the
fixed message "We need exactly 3 teams to lock." (naming no team); a
roster-size violation fails with a message naming the first offending team.
On success a snapshot row (`lockRow`: copied rosters and balances, empty
trade history, race points and processed set, the generated identifier) is
appended to `locked_seasons`, and the pre-lock `teams` table is unchanged. -/
theorem C5_lock_teams_amended (db : DB) (sid : String) :
    ((∃ db', lock_teams db sid = .ok db') ↔
        (db.teams.length = 3 ∧ ∀ t ∈ db.teams, t.roster.length = 6)) ∧
      (db.teams.length ≠ 3 →
        lock_teams db sid = .error (.http 400 "We need exactly 3 teams to lock.")) ∧
      (∀ t, db.teams.length = 3 →
        db.teams.find? (fun t => t.roster.length ≠ 6) = some t →
        lock_teams db sid
          = .error (.http 400 ("Team " ++ t.name ++ " does not have 6 drivers."))) ∧
      (db.teams.length = 3 → (∀ t ∈ db.teams, t.roster.length = 6) →
        lock_teams db sid
          = .ok { db with seasons := db.seasons ++ [lockRow db.teams sid] }) := by
  refine ⟨⟨?_, ?_⟩, ?_, ?_, ?_⟩
  · rintro ⟨db', h⟩
    unfold lock_teams at h
    split at h
    · exact absurd h (by simp)
    · rename_i hl
      split at h
      · exact absurd h (by simp)
      · rename_i hf
        refine ⟨by omega, fun t ht => ?_⟩
        have := List.find?_eq_none.mp hf t ht
        simpa using this
  · rintro ⟨hl, h6⟩
    have hf : db.teams.find? (fun t => t.roster.length ≠ 6) = none := by
      rw [List.find?_eq_none]
      intro t ht
      simpa using h6 t ht
    refine ⟨{ db with seasons := db.seasons ++ [lockRow db.teams sid] }, ?_⟩
    unfold lock_teams
    rw [if_neg (by omega), hf]
  · intro hl
    unfold lock_teams
    rw [if_pos hl]
  · intro t hl hf
    unfold lock_teams
    rw [if_neg (by omega), hf]
  · intro hl h6
    have hf : db.teams.find? (fun t => t.roster.length ≠ 6) = none := by
      rw [List.find?_eq_none]
      intro t ht
      simpa using h6 t ht
    unfold lock_teams
    rw [if_neg (by omega), hf]

/-- Three registered teams, each holding 6 drivers. -/
def demoTeamsThree : List Team :=
  demoTeamsTwo ++ [⟨"Gamma", ["c1", "c2", "c3", "c4", "c5", "c6"], 0⟩]

/-- Witness for the amended C5: locking three full teams succeeds and
appends the snapshot row. -/
theorem C5_witness :
    lock_teams ⟨demoTeamsThree, []⟩ "sid-1"
      = .ok ⟨demoTeamsThree, [lockRow demoTeamsThree "sid-1"]⟩ :=
  (C5_lock_teams_amended ⟨demoTeamsThree, []⟩ "sid-1").2.2.2 (by decide)
    (by decide)

/-! ### The idempotence guard of update_race_points (claim C6) -/

/-- Claim C6: for a season ledger and a race identifier already contained
in its processed-race list, `update_race_points` fails with the 400
"already processed" error, and the database — every team's point balance,
the race-points breakdown and the processed set — is identical before and
after the rejected call.  (`race_id ≠ "latest"` excludes the sentinel,
which is not a race identifier but triggers resolution first.) -/
theorem C6_already_processed_rejected (db : DB) (sid race_id : String)
    (fetch : String → FetchResp) (row : LockedSeason)
    (hfound : db.seasons.find? (fun s => s.season_id = sid) = some row)
    (hlat : race_id ≠ "latest")
    (hproc : race_id ∈ row.processed_races) :
    update_endpoint db sid race_id fetch
        = .error (.http 400 "This race has already been processed.") ∧
      step db (.update sid race_id fetch) = db := by
  have hupd : update_race_points row race_id fetch
      = .error (.http 400 "This race has already been processed.") := by
    unfold update_race_points
    rw [if_neg hlat]
    show update_core row race_id fetch = _
    unfold update_core
    rw [if_pos hproc]
  have hend : update_endpoint db sid race_id fetch
      = .error (.http 400 "This race has already been processed.") := by
    unfold update_endpoint
    rw [hfound]
    show (match update_race_points row race_id fetch with
          | Except.error e => Except.error e
          | Except.ok row' => Except.ok (putSeason db sid row')) = _
    rw [hupd]
  refine ⟨hend, ?_⟩
  show (update_endpoint db sid race_id fetch).toOption.getD db = db
  rw [hend]
  rfl

/-- A demo season with rounds 4 and 5 already processed. -/
def demoRowProcessed : LockedSeason := { demoRow with processed_races := ["4", "5"] }

/-- A fetch oracle that always reports a published race. -/
def demoFetchOK : String → FetchResp :=
  fun _ => ⟨200, [⟨[⟨1, "Finished", "Max", "Verstappen", 25⟩]⟩]⟩

/-- Witness for C6: re-submitting round "4" is rejected and changes
nothing. -/
theorem C6_witness :
    update_endpoint ⟨[], [demoRowProcessed]⟩ "season-1" "4" demoFetchOK
        = .error (.http 400 "This race has already been processed.") ∧
      step ⟨[], [demoRowProcessed]⟩ (.update "season-1" "4" demoFetchOK)
        = ⟨[], [demoRowProcessed]⟩ :=
  C6_already_processed_rejected ⟨[], [demoRowProcessed]⟩ "season-1" "4" demoFetchOK
    demoRowProcessed (by decide) (by decide) (by decide)

/-! ### The scoring rule (claim C7) -/

theorem pyround2_of_mul_eq (q : ℚ) (n : ℤ) (h : 100 * q = (n : ℚ)) :
    pyround2 q = q := by
  apply pyround2_twoDecimal
  unfold TwoDecimal
  rw [h]
  exact Rat.den_intCast n

theorem dget?_BONUS_MAP_none (p : Nat) (h : p < 11 ∨ 20 < p) :
    dget? BONUS_MAP p = none := by
  have h11 : ¬((11 : Nat) = p) := by omega
  have h12 : ¬((12 : Nat) = p) := by omega
  have h13 : ¬((13 : Nat) = p) := by omega
  have h14 : ¬((14 : Nat) = p) := by omega
  have h15 : ¬((15 : Nat) = p) := by omega
  have h16 : ¬((16 : Nat) = p) := by omega
  have h17 : ¬((17 : Nat) = p) := by omega
  have h18 : ¬((18 : Nat) = p) := by omega
  have h19 : ¬((19 : Nat) = p) := by omega
  have h20 : ¬((20 : Nat) = p) := by omega
  simp [dget?, BONUS_MAP, List.find?, h11, h12, h13, h14, h15, h16, h17, h18,
    h19, h20]

/-- A finishing entry at a bonus position with 0 feed points scores exactly
the bonus value. -/
theorem computeDriverPts_bonus (pos : Nat) (status gn fn : String) (b : ℚ)
    (hb : dget? BONUS_MAP pos = some b) (hs : statusCounts status = true)
    (hdecb : TwoDecimal b) :
    computeDriverPts ⟨pos, status, gn, fn, 0⟩ = b := by
  unfold computeDriverPts
  rw [hb]
  show pyround2 (if statusCounts status = true then 0 + b else 0) = b
  rw [if_pos hs, zero_add]
  exact pyround2_twoDecimal b hdecb

/-- Claim C7: per result entry with finishing position P, the computed
points are the feed's official value verbatim for P in [1,10], the fixed
custom scale value (`BONUS_MAP`) for P in [11,20], and 0 for P > 20 or
non-finishing entries, rounded to 2 decimal places.  The hypotheses state
the feed's well-formedness: point values carry at most 2 decimals, and
only finishers placed in the top 10 carry nonzero official points. -/
theorem C7_scoring_rule (pos : Nat) (status givenName familyName : String)
    (pts : ℚ) (hdec : TwoDecimal pts)
    (hz : 11 ≤ pos → pts = 0)
    (hnf : statusCounts status = false → pts = 0) :
    computeDriverPts ⟨pos, status, givenName, familyName, pts⟩ =
      if statusCounts status then
        (if pos ≤ 10 then pts
         else if pos ≤ 20 then dgetD BONUS_MAP pos 0
         else 0)
      else 0 := by
  cases hs : statusCounts status with
  | false =>
    rw [hnf hs]
    rcases hb : dget? BONUS_MAP pos with _ | b <;>
      simp [computeDriverPts, hb, hs, pyround2_of_mul_eq 0 0 (by norm_num)]
  | true =>
    by_cases h10 : pos ≤ 10
    · have hb : dget? BONUS_MAP pos = none := dget?_BONUS_MAP_none pos (Or.inl (by omega))
      simp [computeDriverPts, hb, hs, h10, pyround2_twoDecimal pts hdec]
    · by_cases h20 : pos ≤ 20
      · have h11 : 11 ≤ pos := by omega
        rw [hz h11]
        interval_cases pos <;>
          rw [if_pos rfl, if_neg (by omega), if_pos (by omega)] <;>
          exact computeDriverPts_bonus _ _ _ _ _ rfl hs
            (by unfold TwoDecimal; norm_num [dgetD, dget?, BONUS_MAP, List.find?])
      · have hb : dget? BONUS_MAP pos = none := dget?_BONUS_MAP_none pos (Or.inr (by omega))
        rw [hz (by omega)]
        unfold computeDriverPts
        rw [hb]
        show pyround2 0 = _
        rw [if_pos rfl, if_neg h10, if_neg h20]
        exact pyround2_of_mul_eq 0 0 (by norm_num)

/-- Witness for C7, covering the spec's three examples: position 1 with
feed points 25 stores 25.00, position 11 finished stores 0.50, position 21
stores 0.00. -/
theorem C7_witness :
    computeDriverPts ⟨1, "Finished", "Max", "Verstappen", 25⟩ = 25 ∧
      computeDriverPts ⟨11, "Finished", "A", "B", 0⟩ = 50/100 ∧
      computeDriverPts ⟨21, "Finished", "C", "D", 0⟩ = 0 := by
  have hstat : statusCounts "Finished" = true := by decide
  refine ⟨?_, ?_, ?_⟩
  · have h := C7_scoring_rule 1 "Finished" "Max" "Verstappen" 25
      (by unfold TwoDecimal; norm_num) (by intro h; exact absurd h (by norm_num))
      (by simp [hstat])
    simpa [hstat] using h
  · have h := C7_scoring_rule 11 "Finished" "A" "B" 0
      (by unfold TwoDecimal; norm_num) (fun _ => rfl)
      (by simp [hstat])
    simpa [hstat, dgetD, dget?, BONUS_MAP, List.find?] using h
  · have h := C7_scoring_rule 21 "Finished" "C" "D" 0
      (by unfold TwoDecimal; norm_num) (fun _ => rfl)
      (by simp [hstat])
    simpa [hstat] using h

/-! ### Attribution lemmas for applyRace (claim C8) -/

theorem fold_scoreDriver_points_self (dp : List (String × ℚ)) (rid t : String)
    (roster : List String) (pm : List (String × ℚ))
    (rp : List (String × List (String × RPRec))) :
    dgetD (roster.foldl (scoreDriver dp rid t) (pm, rp)).1 t 0 =
      dgetD pm t 0 + (roster.map (fun d => dgetD dp d 0)).sum := by
  induction roster generalizing pm rp with
  | nil => simp
  | cons d rest ih =>
    simp only [List.foldl_cons, scoreDriver]
    rw [ih, dgetD_dset_self]
    simp only [List.map_cons, List.sum_cons]
    ring

theorem fold_scoreDriver_points_ne (dp : List (String × ℚ)) (rid t t' : String)
    (roster : List String) (pm : List (String × ℚ))
    (rp : List (String × List (String × RPRec))) (h : t ≠ t') :
    dgetD (roster.foldl (scoreDriver dp rid t) (pm, rp)).1 t' 0 = dgetD pm t' 0 := by
  induction roster generalizing pm rp with
  | nil => rfl
  | cons d rest ih =>
    simp only [List.foldl_cons, scoreDriver]
    rw [ih, dgetD_dset_ne _ _ _ _ _ h]

theorem scoreTeam_points_self (dp : List (String × ℚ)) (rid : String)
    (acc : List (String × ℚ) × List (String × List (String × RPRec)))
    (t : String) (roster : List String) :
    dgetD (scoreTeam dp rid acc (t, roster)).1 t 0 =
      dgetD acc.1 t 0 + (roster.map (fun d => dgetD dp d 0)).sum := by
  show dgetD (roster.foldl (scoreDriver dp rid t) (dsetdefault acc.1 t 0, acc.2)).1 t 0 = _
  rw [fold_scoreDriver_points_self, dgetD_dsetdefault_self]

theorem scoreTeam_points_ne (dp : List (String × ℚ)) (rid : String)
    (acc : List (String × ℚ) × List (String × List (String × RPRec)))
    (tr : String × List String) (t' : String) (h : tr.1 ≠ t') :
    dgetD (scoreTeam dp rid acc tr).1 t' 0 = dgetD acc.1 t' 0 := by
  obtain ⟨t, roster⟩ := tr
  show dgetD (roster.foldl (scoreDriver dp rid t) (dsetdefault acc.1 t 0, acc.2)).1 t' 0 = _
  rw [fold_scoreDriver_points_ne _ _ _ _ _ _ _ h]
  exact dgetD_dsetdefault_ne _ _ _ _ _ h

theorem fold_scoreTeam_points_preserve (dp : List (String × ℚ)) (rid : String)
    (teams : List (String × List String))
    (acc : List (String × ℚ) × List (String × List (String × RPRec)))
    (t' : String) (h : ∀ p ∈ teams, p.1 ≠ t') :
    dgetD (teams.foldl (scoreTeam dp rid) acc).1 t' 0 = dgetD acc.1 t' 0 := by
  induction teams generalizing acc with
  | nil => rfl
  | cons tr rest ih =>
    rw [List.foldl_cons, ih _ (fun p hp => h p (List.mem_cons_of_mem _ hp)),
      scoreTeam_points_ne _ _ _ _ _ (h tr (List.mem_cons_self _ _))]

theorem fold_scoreTeam_points_mem (dp : List (String × ℚ)) (rid : String)
    (teams : List (String × List String))
    (acc : List (String × ℚ) × List (String × List (String × RPRec)))
    (t : String) (roster : List String)
    (hmem : (t, roster) ∈ teams) (hnodup : (teams.map Prod.fst).Nodup) :
    dgetD (teams.foldl (scoreTeam dp rid) acc).1 t 0 =
      dgetD acc.1 t 0 + (roster.map (fun d => dgetD dp d 0)).sum := by
  induction teams generalizing acc with
  | nil => cases hmem
  | cons tr rest ih =>
    have hn : tr.1 ∉ rest.map Prod.fst ∧ (rest.map Prod.fst).Nodup := by
      rw [List.map_cons] at hnodup
      exact ⟨(List.nodup_cons.mp hnodup).1, (List.nodup_cons.mp hnodup).2⟩
    rw [List.foldl_cons]
    rcases List.mem_cons.mp hmem with heq | hrest
    · subst heq
      have hnot : ∀ p ∈ rest, p.1 ≠ t := by
        intro p hp hpe
        have hm : p.1 ∈ rest.map Prod.fst := List.mem_map_of_mem Prod.fst hp
        rw [hpe] at hm
        exact hn.1 hm
      rw [fold_scoreTeam_points_preserve _ _ _ _ _ hnot]
      exact scoreTeam_points_self _ _ _ _ _
    · have ht : tr.1 ≠ t := by
        intro he
        apply hn.1
        rw [he]
        exact List.mem_map_of_mem Prod.fst hrest
      rw [ih _ hrest hn.2, scoreTeam_points_ne _ _ _ _ _ ht]

theorem fold_scoreDriver_rp_not_mem (dp : List (String × ℚ)) (rid t : String)
    (roster : List String) (pm : List (String × ℚ))
    (rp : List (String × List (String × RPRec))) (drv : String) (h : drv ∉ roster) :
    dget? (dgetD (roster.foldl (scoreDriver dp rid t) (pm, rp)).2 rid []) drv =
      dget? (dgetD rp rid []) drv := by
  induction roster generalizing pm rp with
  | nil => rfl
  | cons d rest ih =>
    have hd : ¬(drv = d) ∧ drv ∉ rest := by
      rw [List.mem_cons] at h
      exact ⟨fun he => h (Or.inl he), fun he => h (Or.inr he)⟩
    simp only [List.foldl_cons, scoreDriver]
    rw [ih _ _ hd.2, dgetD_dset_self,
      dget?_dset_ne _ _ _ _ (fun he => hd.1 he.symm)]

theorem fold_scoreDriver_rp_mem (dp : List (String × ℚ)) (rid t : String)
    (roster : List String) (pm : List (String × ℚ))
    (rp : List (String × List (String × RPRec))) (drv : String) (h : drv ∈ roster) :
    dget? (dgetD (roster.foldl (scoreDriver dp rid t) (pm, rp)).2 rid []) drv =
      some ⟨dgetD dp drv 0, t⟩ := by
  induction roster generalizing pm rp with
  | nil => cases h
  | cons d rest ih =>
    simp only [List.foldl_cons, scoreDriver]
    by_cases hr : drv ∈ rest
    · exact ih _ _ hr
    · have hd : drv = d := by
        rcases List.mem_cons.mp h with h1 | h2
        · exact h1
        · exact absurd h2 hr
      subst hd
      rw [fold_scoreDriver_rp_not_mem _ _ _ _ _ _ _ hr, dgetD_dset_self,
        dget?_dset_self]

theorem scoreTeam_rp_mem (dp : List (String × ℚ)) (rid : String)
    (acc : List (String × ℚ) × List (String × List (String × RPRec)))
    (t : String) (roster : List String) (drv : String) (h : drv ∈ roster) :
    dget? (dgetD (scoreTeam dp rid acc (t, roster)).2 rid []) drv =
      some ⟨dgetD dp drv 0, t⟩ := by
  show dget? (dgetD (roster.foldl (scoreDriver dp rid t)
      (dsetdefault acc.1 t 0, acc.2)).2 rid []) drv = _
  exact fold_scoreDriver_rp_mem _ _ _ _ _ _ _ h

theorem scoreTeam_rp_not_mem (dp : List (String × ℚ)) (rid : String)
    (acc : List (String × ℚ) × List (String × List (String × RPRec)))
    (tr : String × List String) (drv : String) (h : drv ∉ tr.2) :
    dget? (dgetD (scoreTeam dp rid acc tr).2 rid []) drv =
      dget? (dgetD acc.2 rid []) drv := by
  obtain ⟨t, roster⟩ := tr
  show dget? (dgetD (roster.foldl (scoreDriver dp rid t)
      (dsetdefault acc.1 t 0, acc.2)).2 rid []) drv = _
  exact fold_scoreDriver_rp_not_mem _ _ _ _ _ _ _ h

theorem fold_scoreTeam_rp_preserve (dp : List (String × ℚ)) (rid : String)
    (teams : List (String × List String))
    (acc : List (String × ℚ) × List (String × List (String × RPRec)))
    (drv : String) (h : ∀ p ∈ teams, drv ∉ p.2) :
    dget? (dgetD (teams.foldl (scoreTeam dp rid) acc).2 rid []) drv =
      dget? (dgetD acc.2 rid []) drv := by
  induction teams generalizing acc with
  | nil => rfl
  | cons tr rest ih =>
    rw [List.foldl_cons, ih _ (fun p hp => h p (List.mem_cons_of_mem _ hp)),
      scoreTeam_rp_not_mem _ _ _ _ _ (h tr (List.mem_cons_self _ _))]

theorem fold_scoreTeam_rp_mem (dp : List (String × ℚ)) (rid : String)
    (teams : List (String × List String))
    (acc : List (String × ℚ) × List (String × List (String × RPRec)))
    (t : String) (roster : List String) (drv : String)
    (hmem : (t, roster) ∈ teams) (hnodup : (teams.map Prod.fst).Nodup)
    (hdrv : drv ∈ roster) (honly : ∀ p ∈ teams, p.1 ≠ t → drv ∉ p.2) :
    dget? (dgetD (teams.foldl (scoreTeam dp rid) acc).2 rid []) drv =
      some ⟨dgetD dp drv 0, t⟩ := by
  induction teams generalizing acc with
  | nil => cases hmem
  | cons tr rest ih =>
    have hn : tr.1 ∉ rest.map Prod.fst ∧ (rest.map Prod.fst).Nodup := by
      rw [List.map_cons] at hnodup
      exact ⟨(List.nodup_cons.mp hnodup).1, (List.nodup_cons.mp hnodup).2⟩
    rw [List.foldl_cons]
    rcases List.mem_cons.mp hmem with heq | hrest
    · subst heq
      have hnot : ∀ p ∈ rest, drv ∉ p.2 := by
        intro p hp
        refine honly p (List.mem_cons_of_mem _ hp) ?_
        intro hpe
        have hm : p.1 ∈ rest.map Prod.fst := List.mem_map_of_mem Prod.fst hp
        rw [hpe] at hm
        exact hn.1 hm
      rw [fold_scoreTeam_rp_preserve _ _ _ _ _ hnot]
      exact scoreTeam_rp_mem _ _ _ _ _ _ hdrv
    · exact ih _ hrest hn.2 (fun p hp => honly p (List.mem_cons_of_mem _ hp))

/-- Success shape of the post-resolution part of `update_race_points`. -/
theorem update_core_ok_eq (locked : LockedSeason) (rid : String)
    (fetch : String → FetchResp) (race : RaceData) (tail : List RaceData)
    (hproc : rid ∉ locked.processed_races)
    (hstat : (fetch rid).status_code = 200)
    (hraces : (fetch rid).races = race :: tail) :
    update_core locked rid fetch = .ok { locked with
      points := (applyRace locked.teams (buildDriverPts race.results) rid
        locked.points locked.race_points).1,
      race_points := (applyRace locked.teams (buildDriverPts race.results) rid
        locked.points locked.race_points).2,
      processed_races := locked.processed_races ++ [rid] } := by
  unfold update_core
  rw [if_neg hproc]
  simp only [hstat, hraces, ne_eq, not_true_eq_false, if_false]

/-- Claim C8: a successful `update_race_points` call (a) returns the ledger
with `applyRace` applied to the teams snapshot and the race appended to the
processed list; (b) increases each team's balance by exactly the sum of its
rostered drivers' computed points (0 for drivers absent from the results);
and (c) records each rostered driver's breakdown `{points, team}` under the
resolved race identifier. -/
theorem C8_attribution (locked : LockedSeason) (race_id : String)
    (fetch : String → FetchResp) (race : RaceData) (tail : List RaceData)
    (hlat : race_id ≠ "latest")
    (hproc : race_id ∉ locked.processed_races)
    (hstat : (fetch race_id).status_code = 200)
    (hraces : (fetch race_id).races = race :: tail) :
    (update_race_points locked race_id fetch = .ok { locked with
      points := (applyRace locked.teams (buildDriverPts race.results) race_id
        locked.points locked.race_points).1,
      race_points := (applyRace locked.teams (buildDriverPts race.results) race_id
        locked.points locked.race_points).2,
      processed_races := locked.processed_races ++ [race_id] }) ∧
    ((locked.teams.map Prod.fst).Nodup →
      ∀ t roster, (t, roster) ∈ locked.teams →
        dgetD (applyRace locked.teams (buildDriverPts race.results) race_id
            locked.points locked.race_points).1 t 0 =
          dgetD locked.points t 0 +
            (roster.map (fun d => dgetD (buildDriverPts race.results) d 0)).sum) ∧
    ((locked.teams.map Prod.fst).Nodup →
      ∀ t roster drv, (t, roster) ∈ locked.teams → drv ∈ roster →
        (∀ p ∈ locked.teams, p.1 ≠ t → drv ∉ p.2) →
        dget? (dgetD (applyRace locked.teams (buildDriverPts race.results) race_id
            locked.points locked.race_points).2 race_id []) drv =
          some ⟨dgetD (buildDriverPts race.results) drv 0, t⟩) := by
  refine ⟨?_, ?_, ?_⟩
  · unfold update_race_points
    rw [if_neg hlat]
    show update_core locked race_id fetch = _
    exact update_core_ok_eq locked race_id fetch race tail hproc hstat hraces
  · intro hnodup t roster hmem
    exact fold_scoreTeam_points_mem _ _ _ _ _ _ hmem hnodup
  · intro hnodup t roster drv hmem hdrv honly
    exact fold_scoreTeam_rp_mem _ _ _ _ _ _ _ hmem hnodup hdrv honly

/-- A locked season snapshot used by the C8 witness. -/
def demoRowSnap : LockedSeason :=
  { season_id := "season-1",
    teams := [("A", ["Max Verstappen", "Liam Lawson"]), ("B", ["Lando Norris"])],
    points := [("A", 1)],
    trade_history := [], race_points := [], processed_races := [] }

/-- The feed response used by the C8 witness: Verstappen wins (25 points),
Norris finishes 11th (0 official points). -/
def demoFetchRace : String → FetchResp :=
  fun _ => ⟨200, [⟨[⟨1, "Finished", "Max", "Verstappen", 25⟩,
                    ⟨11, "Finished", "Lando", "Norris", 0⟩]⟩]⟩

/-- Witness for C8: team A's balance grows by the sum of its two drivers'
points, and Norris's breakdown is recorded under round "7" for team B. -/
theorem C8_witness :
    (dgetD (applyRace demoRowSnap.teams
        (buildDriverPts (RaceData.mk [⟨1, "Finished", "Max", "Verstappen", 25⟩,
          ⟨11, "Finished", "Lando", "Norris", 0⟩]).results) "7"
        demoRowSnap.points demoRowSnap.race_points).1 "A" 0 =
      dgetD demoRowSnap.points "A" 0 +
        ((["Max Verstappen", "Liam Lawson"].map
          (fun d => dgetD (buildDriverPts (RaceData.mk
            [⟨1, "Finished", "Max", "Verstappen", 25⟩,
             ⟨11, "Finished", "Lando", "Norris", 0⟩]).results) d 0)).sum)) ∧
    (dget? (dgetD (applyRace demoRowSnap.teams
        (buildDriverPts (RaceData.mk [⟨1, "Finished", "Max", "Verstappen", 25⟩,
          ⟨11, "Finished", "Lando", "Norris", 0⟩]).results) "7"
        demoRowSnap.points demoRowSnap.race_points).2 "7" []) "Lando Norris" =
      some ⟨dgetD (buildDriverPts (RaceData.mk
        [⟨1, "Finished", "Max", "Verstappen", 25⟩,
         ⟨11, "Finished", "Lando", "Norris", 0⟩]).results) "Lando Norris" 0, "B"⟩) := by
  have h := C8_attribution demoRowSnap "7" demoFetchRace
    (RaceData.mk [⟨1, "Finished", "Max", "Verstappen", 25⟩,
      ⟨11, "Finished", "Lando", "Norris", 0⟩]) []
    (by decide) (by decide) rfl rfl
  exact ⟨h.2.1 (by decide) "A" ["Max Verstappen", "Liam Lawson"] (by decide),
    h.2.2 (by decide) "B" ["Lando Norris"] "Lando Norris" (by decide) (by decide)
      (by decide)⟩

/-! ### Resolution of the "latest" race identifier (claim C9) -/

/-- The walk of `RACE_LIST` selects the first calendar entry whose round is
not yet processed, then demands published results for it. -/
theorem resolveLatestAux_eq (processed : List String) (fetch : String → FetchResp)
    (names : List String) :
    resolveLatestAux processed fetch names =
      match names.find? (fun n => !(processed.contains (roundStr n))) with
      | none => .error (.http 400 "All races have been processed")
      | some n =>
        if (fetch (roundStr n)).races = [] then
          .error (.http 400 "Next race not yet available")
        else .ok (roundStr n) := by
  induction names with
  | nil => rfl
  | cons n rest ih =>
    cases h : processed.contains (roundStr n) with
    | true =>
      rw [List.find?_cons_of_neg _ (by rw [h]; decide)]
      show resolveLatestAux processed fetch (n :: rest) = _
      simp only [resolveLatestAux]
      rw [if_pos h]
      exact ih
    | false =>
      rw [List.find?_cons_of_pos _ (by rw [h]; decide)]
      simp only [resolveLatestAux]
      rw [if_neg (by rw [h]; decide)]

/-- Any successful run of the core update appends exactly the resolved
round to the processed list. -/
theorem update_core_ok_processed (locked : LockedSeason) (rid : String)
    (fetch : String → FetchResp) (out : LockedSeason)
    (h : update_core locked rid fetch = .ok out) :
    out.processed_races = locked.processed_races ++ [rid] := by
  unfold update_core at h
  split at h
  · exact absurd h (by simp)
  · dsimp only at h
    split at h
    · exact absurd h (by simp)
    · split at h
      · exact absurd h (by simp)
      · rw [← Except.ok.inj h]

/-- Claim C9: with `race_id = "latest"`, the identifier is resolved to the
first round — in the fixed calendar order of rounds 4 through 24 — that is
not in the processed set; the call fails when every round is processed, and
fails when the first unprocessed round's results are not yet published. -/
theorem C9_latest_resolution (locked : LockedSeason) (fetch : String → FetchResp) :
    (RACE_LIST.map roundStr =
      ["4", "5", "6", "7", "8", "9", "10", "11", "12", "13", "14", "15", "16",
       "17", "18", "19", "20", "21", "22", "23", "24"]) ∧
    (RACE_LIST.find? (fun n => !(locked.processed_races.contains (roundStr n)))
        = none →
      update_race_points locked "latest" fetch
        = .error (.http 400 "All races have been processed")) ∧
    (∀ n, RACE_LIST.find? (fun n => !(locked.processed_races.contains (roundStr n)))
        = some n →
      (fetch (roundStr n)).races = [] →
      update_race_points locked "latest" fetch
        = .error (.http 400 "Next race not yet available")) ∧
    (∀ n out,
      RACE_LIST.find? (fun n => !(locked.processed_races.contains (roundStr n)))
        = some n →
      update_race_points locked "latest" fetch = .ok out →
      out.processed_races = locked.processed_races ++ [roundStr n]) := by
  refine ⟨by decide, ?_, ?_, ?_⟩
  · intro hnone
    unfold update_race_points
    rw [if_pos rfl]
    show (match resolveLatest locked.processed_races fetch with
          | Except.error e => Except.error e
          | Except.ok rid => update_core locked rid fetch) = _
    rw [resolveLatest, resolveLatestAux_eq, hnone]
  · intro n hfind hraces
    unfold update_race_points
    rw [if_pos rfl]
    show (match resolveLatest locked.processed_races fetch with
          | Except.error e => Except.error e
          | Except.ok rid => update_core locked rid fetch) = _
    rw [resolveLatest, resolveLatestAux_eq, hfind]
    show (match (if (fetch (roundStr n)).races = [] then
            (Except.error (PyErr.http 400 "Next race not yet available") :
              Except PyErr String)
          else Except.ok (roundStr n)) with
          | Except.error e => Except.error e
          | Except.ok rid => update_core locked rid fetch) = _
    rw [if_pos hraces]
  · intro n out hfind hok
    unfold update_race_points at hok
    rw [if_pos rfl] at hok
    rw [resolveLatest, resolveLatestAux_eq, hfind] at hok
    dsimp only at hok
    by_cases hr : (fetch (roundStr n)).races = []
    · rw [if_pos hr] at hok
      exact absurd hok (by simp)
    · rw [if_neg hr] at hok
      exact update_core_ok_processed locked (roundStr n) fetch out hok

/-- A season with every calendar round already processed. -/
def demoRowAllProcessed : LockedSeason :=
  { demoRow with processed_races := RACE_LIST.map roundStr }

/-- A fetch oracle with no published results. -/
def demoFetchEmpty : String → FetchResp := fun _ => ⟨200, []⟩

/-- Witness for C9: when every round is processed the "latest" call fails
with the dedicated error. -/
theorem C9_witness :
    update_race_points demoRowAllProcessed "latest" demoFetchEmpty
      = .error (.http 400 "All races have been processed") :=
  (C9_latest_resolution demoRowAllProcessed demoFetchEmpty).2.1 (by decide)

/-! ### The no-shared-drivers invariant (claim C10) -/

/-- No driver name occurs in two different rosters of the list. -/
def NoShared (rosters : List (List String)) : Prop :=
  rosters.Pairwise (fun a b => ∀ d, d ∈ a → d ∉ b)

/-- The invariant: rosters are pairwise disjoint in the pre-lock store and
inside every locked season. -/
def DBInv (db : DB) : Prop :=
  NoShared (db.teams.map Team.roster) ∧
    ∀ s ∈ db.seasons, NoShared (s.teams.map Prod.snd)

theorem mem_updateFirst {p : α → Bool} {f : α → α} {l : List α} {x : α}
    (h : x ∈ updateFirst p f l) : x ∈ l ∨ ∃ y ∈ l, x = f y := by
  induction l with
  | nil => cases h
  | cons a rest ih =>
    unfold updateFirst at h
    by_cases hp : p a = true
    · rw [if_pos hp] at h
      rcases List.mem_cons.mp h with h1 | h2
      · exact Or.inr ⟨a, List.mem_cons_self _ _, h1⟩
      · exact Or.inl (List.mem_cons_of_mem _ h2)
    · rw [if_neg hp] at h
      rcases List.mem_cons.mp h with h1 | h2
      · exact Or.inl (h1 ▸ List.mem_cons_self _ _)
      · rcases ih h2 with h3 | ⟨y, hy, he⟩
        · exact Or.inl (List.mem_cons_of_mem _ h3)
        · exact Or.inr ⟨y, List.mem_cons_of_mem _ hy, he⟩

theorem pairwise_updateFirst {R : α → α → Prop} {p : α → Bool} {f : α → α}
    {l : List α} (h : l.Pairwise R)
    (h1 : ∀ a b, a ∈ l → b ∈ l → R a b → R (f a) b)
    (h2 : ∀ a b, a ∈ l → b ∈ l → R a b → R a (f b)) :
    (updateFirst p f l).Pairwise R := by
  induction l with
  | nil => exact List.Pairwise.nil
  | cons a rest ih =>
    rw [List.pairwise_cons] at h
    unfold updateFirst
    by_cases hp : p a = true
    · rw [if_pos hp, List.pairwise_cons]
      exact ⟨fun b hb => h1 a b (List.mem_cons_self _ _)
        (List.mem_cons_of_mem _ hb) (h.1 b hb), h.2⟩
    · rw [if_neg hp, List.pairwise_cons]
      constructor
      · intro b hb
        rcases mem_updateFirst hb with h3 | ⟨y, hy, he⟩
        · exact h.1 b h3
        · rw [he]
          exact h2 a y (List.mem_cons_self _ _) (List.mem_cons_of_mem _ hy)
            (h.1 y hy)
      · exact ih h.2
          (fun a b ha hb => h1 a b (List.mem_cons_of_mem _ ha) (List.mem_cons_of_mem _ hb))
          (fun a b ha hb => h2 a b (List.mem_cons_of_mem _ ha) (List.mem_cons_of_mem _ hb))

theorem inv_register (db : DB) (n : String) (h : DBInv db) :
    DBInv (register_team db n) := by
  unfold register_team
  by_cases he : db.teams.any (fun t => t.name = n) = true
  · rw [if_pos he]
    exact h
  · rw [if_neg he]
    refine ⟨?_, h.2⟩
    show NoShared ((db.teams ++ [({ name := n, roster := [], points := 0 } : Team)]).map Team.roster)
    rw [List.map_append]
    unfold NoShared
    rw [List.pairwise_append]
    refine ⟨h.1, by simp, ?_⟩
    intro a ha b hb d hd
    simp only [List.map_cons, List.map_nil, List.mem_singleton] at hb
    rw [hb]
    simp

theorem inv_draft (db : DB) (tn dn : String) (db' : DB)
    (hInv : DBInv db) (h : draft_driver db tn dn = .ok db') : DBInv db' := by
  unfold draft_driver at h
  split at h
  · exact absurd h (by simp)
  · split at h
    · exact absurd h (by simp)
    · split at h
      · exact absurd h (by simp)
      · rename_i hany
        have hfresh : ∀ t ∈ db.teams, dn ∉ t.roster := by
          intro t ht hmem
          apply hany
          rw [List.any_eq_true]
          exact ⟨t, ht, by simpa using hmem⟩
        rw [← Except.ok.inj h]
        refine ⟨?_, hInv.2⟩
        show NoShared ((updateFirst (fun t => t.name = tn)
          (fun t => { t with roster := t.roster ++ [dn] }) db.teams).map Team.roster)
        unfold NoShared
        rw [List.pairwise_map]
        have hbase : db.teams.Pairwise
            (fun a b => ∀ d, d ∈ a.roster → d ∉ b.roster) := by
          have := hInv.1
          unfold NoShared at this
          rwa [List.pairwise_map] at this
        apply pairwise_updateFirst hbase
        · intro a b ha hb hab d hd
          rcases List.mem_append.mp hd with h1 | h2
          · exact hab d h1
          · have hdn : d = dn := by simpa using h2
            rw [hdn]
            exact hfresh b hb
        · intro a b ha hb hab d hd hmem
          rcases List.mem_append.mp hmem with h1 | h2
          · exact hab d hd h1
          · have hdn : d = dn := by simpa using h2
            rw [hdn] at hd
            exact hfresh a ha hd

theorem inv_undo (db : DB) (tn dn : String) (db' : DB)
    (hInv : DBInv db) (h : undo_draft db tn dn = .ok db') : DBInv db' := by
  unfold undo_draft at h
  split at h
  · exact absurd h (by simp)
  · split at h
    · rw [← Except.ok.inj h]
      refine ⟨?_, hInv.2⟩
      show NoShared ((updateFirst (fun t => t.name = tn)
        (fun t => { t with roster := t.roster.erase dn }) db.teams).map Team.roster)
      unfold NoShared
      rw [List.pairwise_map]
      have hbase : db.teams.Pairwise
          (fun a b => ∀ d, d ∈ a.roster → d ∉ b.roster) := by
        have := hInv.1
        unfold NoShared at this
        rwa [List.pairwise_map] at this
      apply pairwise_updateFirst hbase
      · intro a b ha hb hab d hd
        exact hab d (List.mem_of_mem_erase hd)
      · intro a b ha hb hab d hd hmem
        exact hab d hd (List.mem_of_mem_erase hmem)
    · exact absurd h (by simp)

theorem inv_reset (db : DB) (h : DBInv db) : DBInv (reset_teams db) :=
  ⟨List.Pairwise.nil, h.2⟩

theorem inv_lock (db : DB) (sid : String) (db' : DB)
    (hInv : DBInv db) (h : lock_teams db sid = .ok db') : DBInv db' := by
  unfold lock_teams at h
  split at h
  · exact absurd h (by simp)
  · split at h
    · exact absurd h (by simp)
    · rw [← Except.ok.inj h]
      refine ⟨hInv.1, ?_⟩
      intro s hs
      rcases List.mem_append.mp hs with h1 | h2
      · exact hInv.2 s h1
      · have hse : s = lockRow db.teams sid := by simpa using h2
        rw [hse]
        show NoShared ((db.teams.map (fun t => (t.name, t.roster))).map Prod.snd)
        have hmm : (db.teams.map (fun t => (t.name, t.roster))).map Prod.snd
            = db.teams.map Team.roster := by
          rw [List.map_map]
          rfl
        rw [hmm]
        exact hInv.1

theorem update_core_teams_eq (locked : LockedSeason) (rid : String)
    (fetch : String → FetchResp) (out : LockedSeason)
    (h : update_core locked rid fetch = .ok out) : out.teams = locked.teams := by
  unfold update_core at h
  split at h
  · exact absurd h (by simp)
  · dsimp only at h
    split at h
    · exact absurd h (by simp)
    · split at h
      · exact absurd h (by simp)
      · rw [← Except.ok.inj h]

theorem update_race_points_teams_eq (locked : LockedSeason) (rid : String)
    (fetch : String → FetchResp) (out : LockedSeason)
    (h : update_race_points locked rid fetch = .ok out) : out.teams = locked.teams := by
  unfold update_race_points at h
  split at h
  · exact absurd h (by simp)
  · exact update_core_teams_eq _ _ _ _ h

theorem inv_update (db : DB) (sid rid : String) (fetch : String → FetchResp)
    (db' : DB) (hInv : DBInv db)
    (h : update_endpoint db sid rid fetch = .ok db') : DBInv db' := by
  unfold update_endpoint at h
  split at h
  · exact absurd h (by simp)
  · rename_i row hfind
    split at h
    · exact absurd h (by simp)
    · rename_i row' hupd
      rw [← Except.ok.inj h]
      refine ⟨hInv.1, ?_⟩
      intro s hs
      unfold putSeason at hs
      rcases mem_updateFirst hs with h1 | ⟨y, hy, he⟩
      · exact hInv.2 s h1
      · rw [he]
        show NoShared (row'.teams.map Prod.snd)
        rw [update_race_points_teams_eq _ _ _ _ hupd]
        exact hInv.2 row (List.mem_of_find?_eq_some hfind)

theorem inv_step (db : DB) (op : Op) (h : DBInv db) : DBInv (step db op) := by
  cases op with
  | register n => exact inv_register db n h
  | draft t d =>
    show DBInv ((draft_driver db t d).toOption.getD db)
    rcases hd : draft_driver db t d with e | db'
    · exact h
    · exact inv_draft db t d db' h hd
  | undo t d =>
    show DBInv ((undo_draft db t d).toOption.getD db)
    rcases hd : undo_draft db t d with e | db'
    · exact h
    · exact inv_undo db t d db' h hd
  | reset => exact inv_reset db h
  | lock sid =>
    show DBInv ((lock_teams db sid).toOption.getD db)
    rcases hd : lock_teams db sid with e | db'
    · exact h
    · exact inv_lock db sid db' h hd
  | trade sid req now =>
    rw [step_trade_eq]
    exact h
  | update sid rid f =>
    show DBInv ((update_endpoint db sid rid f).toOption.getD db)
    rcases hd : update_endpoint db sid rid f with e | db'
    · exact h
    · exact inv_update db sid rid f db' h hd

/-- Claim C10: after any sequence of operations from the empty database —
registrations, drafts, undos, resets, locks, trades and race updates — no
driver name is present on two different teams' rosters, neither in the
pre-lock store nor inside any locked season ledger. -/
theorem C10_no_shared_drivers (ops : List Op) : DBInv (runOps ops) := by
  have main : ∀ (l : List Op) (db : DB), DBInv db → DBInv (l.foldl step db) := by
    intro l
    induction l with
    | nil => exact fun db h => h
    | cons op rest ih => exact fun db h => ih _ (inv_step db op h)
  exact main ops initDB ⟨List.Pairwise.nil, fun s hs => absurd hs (by simp [initDB])⟩
